import Mathlib

/-!
Shallow embedding of the multi-instance monitoring coordinator of the traePy
repository, for checking the natural-language specification against the code.

Source files embedded here:
  * `app/models/database.py` (`MonitorTask` row),
  * `app/services/monitors/base_monitor.py` (`BaseMonitor.execute_check`),
  * `app/services/monitors/http_monitor.py` (`HttpMonitor.check_conditions`,
    error results of `check_service_status`, `complete_monitoring`),
  * `app/services/monitors/database_monitor.py` (`DatabaseMonitor.check_conditions`,
    error results of `check_service_status`),
  * `app/services/monitor_service.py` (`MonitorService.start_monitoring`,
    `_recover_monitoring_tasks`, `_recover_orphaned_tasks`),
  * `app/services/scheduler_service.py` (the self-contained `MonitorService`:
    `_schedule_monitor_job`, `stop_monitoring`, `get_monitoring_status`; its
    `_recover_monitoring_tasks` / `_recover_orphaned_tasks` bodies are
    line-identical to the copies in `monitor_service.py`, so the recovery
    definitions below embed both files at once),
  * `app/routes/monitor.py` (the `/status/{task_id}` and `/stop/{task_id}`
    route handlers, together with the set of methods actually defined on the
    `MonitorService` class they are wired to).

Timestamps (Python `datetime` values) are modelled as natural numbers of
seconds; `a < b - timedelta(seconds=k)` is rendered as `a + k < b`, which is
the same ordering on time points.  JSON values written/read via
`json.dumps`/`json.loads` are modelled by the inductive type `JValue`;
numbers are modelled as integers (the embedded predicates compare them only
for equality and order).
-/

/-- JSON values, as produced by Python `json.loads`. -/
inductive JValue where
  | null : JValue
  | bool : Bool → JValue
  | num : Int → JValue
  | str : String → JValue
  | arr : List JValue → JValue
  | obj : List (String × JValue) → JValue

mutual

/-- Structural equality of JSON values (Python `==` on parsed JSON, with
numbers restricted to integers). -/
def JValue.beq : JValue → JValue → Bool
  | JValue.null, JValue.null => true
  | JValue.bool a, JValue.bool b => a == b
  | JValue.num a, JValue.num b => a == b
  | JValue.str a, JValue.str b => a == b
  | JValue.arr xs, JValue.arr ys => JValue.beqList xs ys
  | JValue.obj xs, JValue.obj ys => JValue.beqObj xs ys
  | _, _ => false

def JValue.beqList : List JValue → List JValue → Bool
  | [], [] => true
  | x :: xs, y :: ys => JValue.beq x y && JValue.beqList xs ys
  | _, _ => false

def JValue.beqObj : List (String × JValue) → List (String × JValue) → Bool
  | [], [] => true
  | (k₁, v₁) :: xs, (k₂, v₂) :: ys => k₁ == k₂ && JValue.beq v₁ v₂ && JValue.beqObj xs ys
  | _, _ => false

end

instance : BEq JValue := ⟨JValue.beq⟩

/-- Python `d[k]` / `k in d` on a JSON object (keys are unique in a dict). -/
def jlookup (fields : List (String × JValue)) (k : String) : Option JValue :=
  (fields.find? (fun p => p.1 == k)).map Prod.snd

/-- Python `k in response_data`. -/
def hasKey (fields : List (String × JValue)) (k : String) : Bool :=
  (jlookup fields k).isSome

/-- Python truthiness of a JSON value (`if data:`). -/
def jFalsy : JValue → Bool
  | JValue.null => true
  | JValue.bool b => !b
  | JValue.num n => n == 0
  | JValue.str s => s.isEmpty
  | JValue.arr xs => xs.isEmpty
  | JValue.obj fs => fs.isEmpty

/-- Dotted-path traversal used by the condition checkers: walk the keys; a
step whose current value is not a dict containing the key fails closed
(`return False` in the source is rendered as `none` here). -/
def getPath : JValue → List String → Option JValue
  | v, [] => some v
  | JValue.obj fs, k :: ks =>
      match jlookup fs k with
      | some v => getPath v ks
      | none => none
  | _, _ :: _ => none

/-- Python `needle in hay` on strings (substring containment). -/
def strContains (hay needle : String) : Bool :=
  needle.isEmpty || (hay.splitOn needle).length > 1

/-- A stored condition column: `none` is SQL NULL (also what an empty or
falsy spec serialises to, see `condColumn`); `some d` is the non-empty JSON
text `json.dumps(d)` of the object `d`.  Every write of these columns in the
source goes through `json.dumps` of a Python dict, so the stored text always
parses back to an object. -/
abbrev CondColumn := Option (List (String × JValue))

/-- `monitor_tasks` row (`app/models/database.py`, class `MonitorTask`). -/
structure MonitorTask where
  taskId : String
  serviceName : String
  jobId : String
  monitorUrl : String
  status : String
  result : Option JValue
  createdAt : Nat
  completedAt : Option Nat
  timeoutAt : Nat
  checkInterval : Nat
  successConditions : CondColumn
  failureConditions : CondColumn
  assignedInstance : Option String
  lastHeartbeat : Option Nat
  retryCount : Nat
  maxRetries : Nat

/-- `MonitorService.heartbeat_timeout` (120 seconds). -/
def heartbeatTimeout : Nat := 120

/-- `MonitorService.task_timeout` (1800 seconds). -/
def taskTimeout : Nat := 1800

/-- Terminal statuses of the task state machine. -/
def terminalStatuses : List String := ["completed", "failed", "timeout", "stopped"]

/-- `HttpMonitor.check_conditions`, "status_code" clause: absent condition
passes; a missing `status_code` in the response raises `KeyError`, which the
enclosing `except` turns into `False`; a list condition is a membership
test, otherwise an equality test. -/
def httpCondStatusOk (resp conds : List (String × JValue)) : Bool :=
  match jlookup conds "status_code" with
  | none => true
  | some expected =>
      match jlookup resp "status_code" with
      | none => false
      | some actual =>
          match expected with
          | JValue.arr xs => xs.contains actual
          | e => actual == e

/-- `HttpMonitor.check_conditions`, "json_fields" clause: applies only when
the condition key is present AND the response has parsed JSON; each dotted
path must resolve inside the JSON payload to the expected value (failed
traversal fails closed); `.items()` on a non-dict raises, which the
enclosing `except` turns into `False`. -/
def httpCondJsonOk (resp conds : List (String × JValue)) : Bool :=
  match jlookup conds "json_fields", jlookup resp "json" with
  | some (JValue.obj entries), some jsonData =>
      entries.all (fun p =>
        match getPath jsonData (p.1.splitOn ".") with
        | some v => v == p.2
        | none => false)
  | some _, some _ => false
  | _, _ => true

/-- `HttpMonitor.check_conditions`, "body_contains" clause: substring test
against the response body; a missing body or a non-string operand raises,
which the enclosing `except` turns into `False`. -/
def httpCondBodyOk (resp conds : List (String × JValue)) : Bool :=
  match jlookup conds "body_contains" with
  | none => true
  | some (JValue.str needle) =>
      match jlookup resp "body" with
      | some (JValue.str body) => strContains body needle
      | _ => false
  | some _ => false

/-- `HttpMonitor.check_conditions`: a NULL/empty spec never matches, an
errored response never matches, otherwise all present clauses must hold. -/
def httpCheckConditions (resp : List (String × JValue)) (conds : CondColumn) : Bool :=
  match conds with
  | none => false
  | some conditions =>
      if hasKey resp "error" then false
      else httpCondStatusOk resp conditions &&
           httpCondJsonOk resp conditions &&
           httpCondBodyOk resp conditions

/-- `DatabaseMonitor.check_conditions`, "min_row_count" clause:
`response_data.get("row_count", 0)` defaults to 0; comparing against a
non-numeric bound raises, which the enclosing `except` turns into `False`. -/
def dbCondMinRows (resp conds : List (String × JValue)) : Bool :=
  match jlookup conds "min_row_count" with
  | none => true
  | some (JValue.num m) =>
      match jlookup resp "row_count" with
      | some (JValue.num rc) => !(rc < m)
      | none => !((0 : Int) < m)
      | some _ => false
  | some _ => false

/-- `DatabaseMonitor.check_conditions`, "max_row_count" clause. -/
def dbCondMaxRows (resp conds : List (String × JValue)) : Bool :=
  match jlookup conds "max_row_count" with
  | none => true
  | some (JValue.num m) =>
      match jlookup resp "row_count" with
      | some (JValue.num rc) => !(m < rc)
      | none => !(m < (0 : Int))
      | some _ => false
  | some _ => false

/-- `DatabaseMonitor.check_conditions`, "max_response_time" clause: the
default `float('inf')` exceeds every finite bound, so a response without
`response_time_seconds` fails the clause. -/
def dbCondRespTime (resp conds : List (String × JValue)) : Bool :=
  match jlookup conds "max_response_time" with
  | none => true
  | some (JValue.num m) =>
      match jlookup resp "response_time_seconds" with
      | some (JValue.num rt) => !(m < rt)
      | none => false
      | some _ => false
  | some _ => false

/-- `DatabaseMonitor.check_conditions`, "data_fields" clause: skipped when
the condition key or the response `data` is absent, or when `data` is falsy
(e.g. the empty list); otherwise each dotted path is checked against the
first row; a non-list truthy `data` or a non-dict spec raises, which the
enclosing `except` turns into `False`. -/
def dbCondDataOk (resp conds : List (String × JValue)) : Bool :=
  match jlookup conds "data_fields" with
  | none => true
  | some df =>
      match jlookup resp "data" with
      | none => true
      | some d =>
          if jFalsy d then true
          else
            match df, d with
            | JValue.obj entries, JValue.arr (first :: _) =>
                entries.all (fun p =>
                  match getPath first (p.1.splitOn ".") with
                  | some v => v == p.2
                  | none => false)
            | _, _ => false

/-- `DatabaseMonitor.check_conditions`: a NULL/empty spec never matches, an
errored response never matches, otherwise all present clauses must hold. -/
def dbCheckConditions (resp : List (String × JValue)) (conds : CondColumn) : Bool :=
  match conds with
  | none => false
  | some conditions =>
      if hasKey resp "error" then false
      else dbCondMinRows resp conditions &&
           dbCondMaxRows resp conditions &&
           dbCondRespTime resp conditions &&
           dbCondDataOk resp conditions

example : httpCheckConditions [("status_code", JValue.num 200)] (some []) = true := by decide
example : httpCheckConditions [("error", JValue.str "boom")] (some []) = false := by decide
example : dbCheckConditions [("row_count", JValue.num 3)]
    (some [("min_row_count", JValue.num 1)]) = true := by decide

/-- The per-instance view of the shared system: the `monitor_tasks` table
plus this instance's APScheduler job registry (job ids). -/
structure MonitorState where
  tasks : List MonitorTask
  jobs : List String

/-- APScheduler job id used by `MonitorService._schedule_monitor_job`
(`scheduler_service.py`): `f"monitor_{task.task_id}"`. -/
def monJobId (tid : String) : String := "monitor_" ++ tid

/-- `MonitorService._schedule_monitor_job` (`scheduler_service.py`, lines
230-255): remove any existing job with this id, then add a fresh interval
job for the task. -/
def scheduleMonitorJob (jobs : List String) (tid : String) : List String :=
  (jobs.filter (fun j => j ≠ monJobId tid)) ++ [monJobId tid]

/-- `scheduler.remove_job(job_id)` with `JobLookupError` swallowed. -/
def removeJob (jobs : List String) (jid : String) : List String :=
  jobs.filter (fun j => j ≠ jid)

/-- `complete_monitoring` (`http_monitor.py` / `database_monitor.py` /
`scheduler_service.py._complete_monitoring`): set the terminal status,
record `completed_at` and the JSON result, and remove the scheduled job. -/
def completeTask (now : Nat) (task : MonitorTask) (status : String)
    (resultData : JValue) : MonitorTask :=
  { task with status := status, completedAt := some now, result := some resultData }

/-- The `{"error": "Task globally timed out"}` result payload. -/
def timeoutResult : JValue := JValue.obj [("error", JValue.str "Task globally timed out")]

/-- The `{"error": "Max retries exceeded after instance failure"}` payload. -/
def maxRetriesResult : JValue :=
  JValue.obj [("error", JValue.str "Max retries exceeded after instance failure")]

/-- `BaseMonitor.execute_check` (`base_monitor.py`, lines 42-102), for one
task row, generic over the concrete monitor's `check_conditions` (the
abstract method of the base class) and its job-id scheme.  The probe result
(`check_service_status`, external I/O) is passed in as `probeResult`.
Steps, in source order: the locked query requires the row to be assigned to
this instance with status `running` (otherwise nothing happens); a task at
or past `timeout_at` is completed as `timeout` before anything else; the
heartbeat is refreshed; success conditions are checked first and complete
the task as `completed`; failure conditions are checked second and complete
it as `failed`; otherwise the heartbeat refresh is committed and monitoring
continues. -/
def executeCheckWith
    (checkConds : List (String × JValue) → CondColumn → Bool)
    (jobIdOf : String → String)
    (instanceId : String) (now : Nat)
    (probeResult : List (String × JValue))
    (task : MonitorTask) (jobs : List String) : MonitorTask × List String :=
  if !(task.assignedInstance == some instanceId && task.status == "running") then
    (task, jobs)
  else if task.timeoutAt ≤ now then
    (completeTask now task "timeout" timeoutResult, removeJob jobs (jobIdOf task.taskId))
  else
    let task := { task with lastHeartbeat := some now }
    if checkConds probeResult task.successConditions then
      (completeTask now task "completed" (JValue.obj probeResult),
       removeJob jobs (jobIdOf task.taskId))
    else if checkConds probeResult task.failureConditions then
      (completeTask now task "failed" (JValue.obj probeResult),
       removeJob jobs (jobIdOf task.taskId))
    else
      (task, jobs)

/-- `HttpMonitor` job-id scheme: `f"http_monitor_{task.task_id}"`. -/
def httpJobId (tid : String) : String := "http_monitor_" ++ tid

/-- `DatabaseMonitor` job-id scheme: `f"db_monitor_{task.task_id}"`. -/
def dbJobId (tid : String) : String := "db_monitor_" ++ tid

/-- `HttpMonitor.execute_check` (the base logic instantiated with the HTTP
condition checker). -/
def httpExecuteCheck (instanceId : String) (now : Nat)
    (probeResult : List (String × JValue))
    (task : MonitorTask) (jobs : List String) : MonitorTask × List String :=
  executeCheckWith httpCheckConditions httpJobId instanceId now probeResult task jobs

/-- `DatabaseMonitor.execute_check`. -/
def dbExecuteCheck (instanceId : String) (now : Nat)
    (probeResult : List (String × JValue))
    (task : MonitorTask) (jobs : List String) : MonitorTask × List String :=
  executeCheckWith dbCheckConditions dbJobId instanceId now probeResult task jobs

/-- `HttpMonitor.check_service_status` error results: both `except` branches
return a dict with an `"error"` key instead of raising. -/
def httpProbeErrorResult (msg timestamp : String) : List (String × JValue) :=
  [("error", JValue.str msg), ("timestamp", JValue.str timestamp)]

/-- `DatabaseMonitor.check_service_status` error result: the `except` branch
returns a dict with an `"error"` key instead of raising. -/
def dbProbeErrorResult (msg timestamp : String) : List (String × JValue) :=
  [("error", JValue.str ("Database check failed: " ++ msg)),
   ("timestamp", JValue.str timestamp)]

/-- Row filter of the periodic sweep `MonitorService._recover_orphaned_tasks`
(`monitor_service.py` lines 150-157, identically `scheduler_service.py`
lines 132-139): status `running`, heartbeat strictly older than
`now - heartbeat_timeout`, assigned to a different instance, and not past
the global deadline.  SQL three-valued logic makes `last_heartbeat < x` and
`assigned_instance != x` both false for NULL columns, so unassigned or
never-heartbeaten rows do not match. -/
def orphanPred (instanceId : String) (now : Nat) (t : MonitorTask) : Bool :=
  t.status == "running" &&
  (match t.lastHeartbeat with
   | some hb => hb + heartbeatTimeout < now
   | none => false) &&
  (match t.assignedInstance with
   | some i => i != instanceId
   | none => false) &&
  now < t.timeoutAt

/-- Per-row body of the sweep loop (`monitor_service.py` lines 160-179):
take ownership, refresh the heartbeat, increment `retry_count`; if the new
count exceeds `max_retries`, mark the task `failed` with the explanatory
result and skip scheduling (`continue`); otherwise reschedule the probe job
(the returned flag records whether `_schedule_monitor_job` is called). -/
def sweepTask (instanceId : String) (now : Nat) (t : MonitorTask) : MonitorTask × Bool :=
  let t := { t with assignedInstance := some instanceId,
                    lastHeartbeat := some now,
                    retryCount := t.retryCount + 1 }
  if t.maxRetries < t.retryCount then
    ({ t with status := "failed", completedAt := some now,
              result := some maxRetriesResult }, false)
  else
    (t, true)

/-- The scheduler-side effect of a recovery loop: for every row for which
the loop body reaches its `_schedule_monitor_job` call (as decided by
`cond`), reschedule that row's probe job. -/
def schedSweepJobs (cond : MonitorTask → Bool) (l : List MonitorTask)
    (js : List String) : List String :=
  l.foldl (fun acc t => if cond t then scheduleMonitorJob acc t.taskId else acc) js

/-- `MonitorService._recover_orphaned_tasks` of the self-contained class in
`scheduler_service.py` (lines 123-173, whose loop body is line-identical to
`monitor_service.py` lines 141-191): every row matching `orphanPred` is
transformed by `sweepTask`; rows whose transform asks for scheduling get
their probe job rescheduled via `_schedule_monitor_job` (lines 230-255 of
the same class — on the `monitor_service.py` copy that helper is missing,
cf. `recoverMonitoringTasks`). -/
def recoverOrphanedTasks (instanceId : String) (now : Nat)
    (s : MonitorState) : MonitorState :=
  { tasks := s.tasks.map (fun t =>
      if orphanPred instanceId now t then (sweepTask instanceId now t).1 else t),
    jobs := schedSweepJobs
      (fun t => orphanPred instanceId now t && (sweepTask instanceId now t).2)
      s.tasks s.jobs }

/-- Row filter of the startup scan `MonitorService._recover_monitoring_tasks`
(`monitor_service.py` lines 90-106 = `scheduler_service.py` lines 72-88):
status `pending` or `running`; and either assigned to this instance, or an
orphaned running row (stale heartbeat), or an unassigned pending row; and
`timeout_at` strictly in the future.  As in `orphanPred`, NULL columns make
the comparison predicates false. -/
def startupPred (instanceId : String) (now : Nat) (t : MonitorTask) : Bool :=
  (t.status == "pending" || t.status == "running") &&
  (t.assignedInstance == some instanceId ||
   (t.status == "running" &&
    (match t.lastHeartbeat with
     | some hb => hb + heartbeatTimeout < now
     | none => false)) ||
   (t.status == "pending" && t.assignedInstance == none)) &&
  now < t.timeoutAt

/-- Per-row body of the startup scan loop (`monitor_service.py` lines
109-130): a row already past its deadline is marked `timeout` and skipped
(this branch is unreachable because the query filter
already requires `timeout_at > current_time` with the same timestamp);
otherwise the instance claims the row (`assigned_instance = self`,
status `running`, heartbeat reset).  The returned flag records whether the
loop body then reaches its `await self._schedule_monitor_job(task)` call. -/
def startupRecoverTask (instanceId : String) (now : Nat) (t : MonitorTask) :
    MonitorTask × Bool :=
  if t.timeoutAt ≤ now then
    ({ t with status := "timeout", completedAt := some now,
              result := some timeoutResult }, false)
  else
    ({ t with assignedInstance := some instanceId,
              status := "running",
              lastHeartbeat := some now }, true)

/-- `MonitorService._recover_monitoring_tasks` of `monitor_service.py`
(lines 80-139), as that class is actually defined: the loop body mutates
each matching row (see `startupRecoverTask`) and then calls
`self._schedule_monitor_job(task)` — but this class defines no
`_schedule_monitor_job` (see `monitorServiceMethods`; the method of that
name exists only on the unrelated class in `scheduler_service.py`), so the
attribute lookup raises `AttributeError`, the per-task `except` swallows
it, and `db.commit()` still commits the row mutations.  Hence the scan
claims rows but never adds a job to this instance's scheduler: the job
registry is returned unchanged. -/
def recoverMonitoringTasks (instanceId : String) (now : Nat)
    (s : MonitorState) : MonitorState :=
  { tasks := s.tasks.map (fun t =>
      if startupPred instanceId now t then (startupRecoverTask instanceId now t).1 else t),
    jobs := s.jobs }

/-- `json.dumps(conditions) if conditions else None`
(`monitor_service.py` lines 223-224): a Python `None` or an empty dict is
falsy, so both store SQL NULL; only a non-empty dict is serialised. -/
def condColumn (conds : CondColumn) : CondColumn :=
  match conds with
  | none => none
  | some d => if d.isEmpty then none else some d

/-- `MonitorService.get_monitor` (`monitor_service.py` lines 36-42) reduced
to the job-id scheme of the selected monitor: `database`, `mysql`,
`postgresql` select the `DatabaseMonitor`; `http`, `https` and any unknown
name select the `HttpMonitor` (case-insensitive). -/
def jobIdSchemeFor (serviceName : String) : String → String :=
  if serviceName.toLower == "database" || serviceName.toLower == "mysql"
     || serviceName.toLower == "postgresql" then dbJobId else httpJobId

/-- The duplicate-suppression query of `MonitorService.start_monitoring`
(`monitor_service.py` lines 202-208): the first row with the same
`service_name` and `job_id` whose status is `pending` or `running`. -/
def findActiveTask (serviceName jobId : String) (tasks : List MonitorTask) :
    Option MonitorTask :=
  tasks.find? (fun t =>
    t.serviceName == serviceName && t.jobId == jobId &&
    (t.status == "pending" || t.status == "running"))

/-- `MonitorService.start_monitoring` (`monitor_service.py` lines 193-251):
if an active task for the pair already exists its `task_id` is returned and
nothing changes; otherwise a fresh row is inserted (status `pending`,
assigned to this instance, deadline `now + task_timeout`, column defaults
`retry_count = 0`, `max_retries = 3`), the probe job is scheduled through
the selected monitor, and the status is committed as `running`.  The fresh
`str(uuid.uuid4())` is passed in as `newId`. -/
def startMonitoring (instanceId : String) (now : Nat) (newId : String)
    (serviceName jobId monitorUrl : String)
    (succ failc : CondColumn) (checkInterval : Nat)
    (s : MonitorState) : String × MonitorState :=
  match findActiveTask serviceName jobId s.tasks with
  | some t => (t.taskId, s)
  | none =>
      let newTask : MonitorTask :=
        { taskId := newId
          serviceName := serviceName
          jobId := jobId
          monitorUrl := monitorUrl
          status := "running"
          result := none
          createdAt := now
          completedAt := none
          timeoutAt := now + taskTimeout
          checkInterval := checkInterval
          successConditions := condColumn succ
          failureConditions := condColumn failc
          assignedInstance := some instanceId
          lastHeartbeat := some now
          retryCount := 0
          maxRetries := 3 }
      let jid := jobIdSchemeFor serviceName newId
      (newId, { tasks := s.tasks ++ [newTask],
                jobs := (s.jobs.filter (fun j => j ≠ jid)) ++ [jid] })

/-- `MonitorService.stop_monitoring` (`scheduler_service.py` lines 400-424):
the locked query selects the row with this `task_id` and status `running`;
if none exists the call reports `False`; otherwise `_complete_monitoring`
records status `stopped` with `completed_at` set, removes the scheduled job,
and the call reports `True`.  `task_id` is a unique column, so updating
every matching row coincides with updating the single locked row. -/
def stopMonitoring (now : Nat) (tid : String) (s : MonitorState) :
    MonitorState × Bool :=
  match s.tasks.find? (fun t => t.taskId == tid && t.status == "running") with
  | none => (s, false)
  | some _ =>
      ({ tasks := s.tasks.map (fun t =>
           if t.taskId == tid && t.status == "running" then
             completeTask now t "stopped"
               (JValue.obj [("message", JValue.str "Manually stopped")])
           else t),
         jobs := removeJob s.jobs (monJobId tid) }, true)

/-- `MonitorService.get_monitoring_status` (`scheduler_service.py` lines
426-459), reduced to the row lookup: the snapshot it serialises is the
task's committed row, or `None` when no row has this `task_id`. -/
def getMonitoringStatusImpl (tid : String) (tasks : List MonitorTask) :
    Option MonitorTask :=
  tasks.find? (fun t => t.taskId == tid)

/-- The methods defined on the `MonitorService` class of
`app/services/monitor_service.py` — the class whose global instance
`monitor_service` the route module `app/routes/monitor.py` imports.
(`get_monitoring_status`, `get_all_monitoring_tasks`, `_stop_monitoring`
and `_schedule_monitor_job` are *not* among them; the first is defined only
on the unrelated `MonitorService` class in `scheduler_service.py`, the
other two nowhere in the repository.) -/
def monitorServiceMethods : List String :=
  ["get_monitor", "start_service", "stop_service",
   "_recover_monitoring_tasks", "_recover_orphaned_tasks", "start_monitoring"]

/-- Outcome of a route handler in `app/routes/monitor.py`: a 2xx response
(carrying the reported task status, when one is reported), a 404, or the
500 produced by the catch-all `except Exception` handler. -/
inductive RouteResult where
  | success : Option String → RouteResult
  | notFound : RouteResult
  | serverError : RouteResult
deriving DecidableEq, Repr

/-- Route `GET /status/{task_id}` (`app/routes/monitor.py` lines 49-65):
the handler evaluates `monitor_service.get_monitoring_status(task_id)`;
attribute lookup on the imported service object succeeds only if the class
defines the method — otherwise the `AttributeError` is caught by
`except Exception` and becomes an HTTP 500.  When the method resolves, a
missing row yields 404 and an existing row yields its snapshot. -/
def routeGetStatus (tid : String) (tasks : List MonitorTask) : RouteResult :=
  if monitorServiceMethods.contains "get_monitoring_status" then
    match getMonitoringStatusImpl tid tasks with
    | some t => RouteResult.success (some t.status)
    | none => RouteResult.notFound
  else
    RouteResult.serverError

/-- Route `DELETE /stop/{task_id}` (`app/routes/monitor.py` lines 82-124):
the handler first evaluates `monitor_service.get_monitoring_status(task_id)`
(an `AttributeError` → 500, as in `routeGetStatus`); a missing row yields
404; a row whose status differs from the literal `"monitoring"` yields an
early `"Task is already {status}"` success with no state change; otherwise
it evaluates `monitor_service._stop_monitoring(task_id)` (again
`AttributeError` → 500 if undefined) and then sets the row to `stopped`. -/
def routeStopMonitoring (tid : String) (now : Nat) (s : MonitorState) :
    RouteResult × MonitorState :=
  if monitorServiceMethods.contains "get_monitoring_status" then
    match getMonitoringStatusImpl tid s.tasks with
    | none => (RouteResult.notFound, s)
    | some t =>
        if t.status ≠ "monitoring" then
          (RouteResult.success (some t.status), s)
        else if monitorServiceMethods.contains "_stop_monitoring" then
          (RouteResult.success none,
           { s with tasks := s.tasks.map (fun u =>
               if u.taskId == tid then
                 { u with status := "stopped", completedAt := some now }
               else u) })
        else
          (RouteResult.serverError, s)
  else
    (RouteResult.serverError, s)

/-- A representative HTTP probe result for a healthy endpoint. -/
def sampleProbe : List (String × JValue) :=
  [("status_code", JValue.num 200), ("body", JValue.str "ok")]

/-- A representative running task owned by instance `instance-a`. -/
def baseTask : MonitorTask :=
  { taskId := "t0"
    serviceName := "http"
    jobId := "job-0"
    monitorUrl := "http://example/health"
    status := "running"
    result := none
    createdAt := 0
    completedAt := none
    timeoutAt := 1800
    checkInterval := 30
    successConditions := some [("status_code", JValue.num 200)]
    failureConditions := none
    assignedInstance := some "instance-a"
    lastHeartbeat := some 0
    retryCount := 0
    maxRetries := 3 }

/-- An orphaned running task (stale heartbeat, foreign owner) that is still
inside its global deadline at time 1000. -/
def orphanTask : MonitorTask :=
  { baseTask with taskId := "t-orphan", lastHeartbeat := some 100, timeoutAt := 5000 }

/-- An orphaned running task whose retries are exhausted. -/
def exhaustedTask : MonitorTask :=
  { orphanTask with taskId := "t-exhausted", retryCount := 3, maxRetries := 3 }

/-- An orphaned running task already past its global deadline at time 1000. -/
def expiredOrphanTask : MonitorTask :=
  { baseTask with taskId := "t-expired", lastHeartbeat := some 100, timeoutAt := 500 }

/-- An unassigned pending task already past its global deadline at time 1000. -/
def expiredPendingTask : MonitorTask :=
  { baseTask with taskId := "t-pend-exp", status := "pending",
                  assignedInstance := none, lastHeartbeat := none, timeoutAt := 500 }

/-- An unassigned pending task still inside its deadline at time 1000. -/
def pendingTask : MonitorTask :=
  { baseTask with taskId := "t-pend", status := "pending",
                  assignedInstance := none, lastHeartbeat := none, timeoutAt := 5000 }

/-- A task already in the terminal status `completed`. -/
def doneTask : MonitorTask :=
  { baseTask with taskId := "t-done", status := "completed", completedAt := some 10 }

/-- A running task whose success and failure conditions are identical. -/
def bothCondTask : MonitorTask :=
  { baseTask with taskId := "t-both",
                  successConditions := some [("status_code", JValue.num 200)],
                  failureConditions := some [("status_code", JValue.num 200)] }

/-- A running task whose stored success-conditions column is the empty JSON
object `{}` (no recognized predicate keys). -/
def emptySpecTask : MonitorTask :=
  { baseTask with taskId := "t-empty", successConditions := some [] }

/-! ### Helper lemmas -/

theorem monJobId_inj {a b : String} (h : monJobId a = monJobId b) : a = b := by
  have hd := congrArg String.data h
  simp [monJobId, String.data_append] at hd
  cases a; cases b; simp_all

theorem mem_scheduleMonitorJob {js : List String} {tid x : String} :
    x ∈ scheduleMonitorJob js tid ↔ x ∈ js ∨ x = monJobId tid := by
  simp only [scheduleMonitorJob, List.mem_append, List.mem_filter,
    List.mem_singleton, decide_eq_true_eq]
  by_cases h : x = monJobId tid <;> simp [h]

theorem mem_schedSweepJobs {cond : MonitorTask → Bool} {l : List MonitorTask}
    {js : List String} {x : String} :
    x ∈ schedSweepJobs cond l js ↔
      x ∈ js ∨ ∃ t ∈ l, cond t = true ∧ x = monJobId t.taskId := by
  induction l generalizing js with
  | nil => simp [schedSweepJobs]
  | cons t l ih =>
      have hstep : schedSweepJobs cond (t :: l) js
          = schedSweepJobs cond l (if cond t then scheduleMonitorJob js t.taskId else js) := rfl
      rw [hstep]
      by_cases h : cond t = true
      · rw [if_pos h, ih, mem_scheduleMonitorJob]
        constructor
        · rintro ((hx | hx) | ⟨u, hu, hc, hx⟩)
          · exact Or.inl hx
          · exact Or.inr ⟨t, List.mem_cons_self t l, h, hx⟩
          · exact Or.inr ⟨u, List.mem_cons_of_mem t hu, hc, hx⟩
        · rintro (hx | ⟨u, hu, hc, hx⟩)
          · exact Or.inl (Or.inl hx)
          · rcases List.mem_cons.mp hu with rfl | hu
            · exact Or.inl (Or.inr hx)
            · exact Or.inr ⟨u, hu, hc, hx⟩
      · rw [if_neg h, ih]
        constructor
        · rintro (hx | ⟨u, hu, hc, hx⟩)
          · exact Or.inl hx
          · exact Or.inr ⟨u, List.mem_cons_of_mem t hu, hc, hx⟩
        · rintro (hx | ⟨u, hu, hc, hx⟩)
          · exact Or.inl hx
          · rcases List.mem_cons.mp hu with rfl | hu
            · exact absurd hc h
            · exact Or.inr ⟨u, hu, hc, hx⟩

theorem httpCheckConditions_error {resp : List (String × JValue)}
    (h : hasKey resp "error" = true) (conds : CondColumn) :
    httpCheckConditions resp conds = false := by
  cases conds <;> simp [httpCheckConditions, h]

theorem dbCheckConditions_error {resp : List (String × JValue)}
    (h : hasKey resp "error" = true) (conds : CondColumn) :
    dbCheckConditions resp conds = false := by
  cases conds <;> simp [dbCheckConditions, h]

theorem jlookup_eq_none {conds : List (String × JValue)} {k : String}
    (h : ∀ p ∈ conds, p.1 ≠ k) : jlookup conds k = none := by
  have hf : List.find? (fun p => p.1 == k) conds = none :=
    List.find?_eq_none.mpr (by intro p hp; simpa using h p hp)
  simp [jlookup, hf]

/-! ### Claim theorems -/

/-- C1: when the periodic recovery sweep finds a running task whose
heartbeat is older than the heartbeat-timeout threshold, whose assigned
instance differs from the sweeping instance, and whose deadline is in the
future, it increments `retry_count`; if the new count exceeds `max_retries`
the task is marked `failed` with the explanatory result and its probe job
is not rescheduled; otherwise the sweeping instance takes ownership
(`assigned_instance = self`, heartbeat reset to now) and reschedules the
probe job. -/
theorem orphan_sweep_retry_bound
    (inst : String) (now : Nat) (s : MonitorState) (t : MonitorTask)
    (hmem : t ∈ s.tasks) (horph : orphanPred inst now t = true)
    (hjob : monJobId t.taskId ∉ s.jobs)
    (huniq : ∀ u ∈ s.tasks, u.taskId = t.taskId → u = t) :
    (sweepTask inst now t).1 ∈ (recoverOrphanedTasks inst now s).tasks ∧
    (sweepTask inst now t).1.retryCount = t.retryCount + 1 ∧
    (t.maxRetries < t.retryCount + 1 →
      (sweepTask inst now t).1.status = "failed" ∧
      (sweepTask inst now t).1.result = some maxRetriesResult ∧
      (sweepTask inst now t).1.completedAt = some now ∧
      monJobId t.taskId ∉ (recoverOrphanedTasks inst now s).jobs) ∧
    (t.retryCount + 1 ≤ t.maxRetries →
      (sweepTask inst now t).1.status = "running" ∧
      (sweepTask inst now t).1.assignedInstance = some inst ∧
      (sweepTask inst now t).1.lastHeartbeat = some now ∧
      monJobId t.taskId ∈ (recoverOrphanedTasks inst now s).jobs) := by
  have hrun : t.status = "running" := by
    simp only [orphanPred, Bool.and_eq_true, beq_iff_eq] at horph
    exact horph.1.1.1
  refine ⟨?_, ?_, ?_, ?_⟩
  · have hm := List.mem_map_of_mem
      (fun u => if orphanPred inst now u then (sweepTask inst now u).1 else u) hmem
    simp only [recoverOrphanedTasks]
    simpa [horph] using hm
  · simp only [sweepTask]
    split <;> rfl
  · intro hex
    have hcond : (sweepTask inst now t).2 = false := by
      simp only [sweepTask]
      rw [if_pos hex]
    refine ⟨?_, ?_, ?_, ?_⟩
    · simp only [sweepTask]; rw [if_pos hex]
    · simp only [sweepTask]; rw [if_pos hex]
    · simp only [sweepTask]; rw [if_pos hex]
    · intro hin
      simp only [recoverOrphanedTasks] at hin
      rw [mem_schedSweepJobs] at hin
      rcases hin with hin | ⟨u, hu, hc, hx⟩
      · exact hjob hin
      · have : u = t := huniq u hu (monJobId_inj hx.symm)
        subst this
        rw [Bool.and_eq_true] at hc
        rw [hcond] at hc
        exact Bool.false_ne_true hc.2
  · intro hle
    have hnex : ¬ t.maxRetries < t.retryCount + 1 := Nat.not_lt.mpr hle
    refine ⟨?_, ?_, ?_, ?_⟩
    · simp only [sweepTask]; rw [if_neg hnex]; exact hrun
    · simp only [sweepTask]; rw [if_neg hnex]
    · simp only [sweepTask]; rw [if_neg hnex]
    · simp only [recoverOrphanedTasks]
      rw [mem_schedSweepJobs]
      refine Or.inr ⟨t, hmem, ?_, rfl⟩
      rw [Bool.and_eq_true]
      refine ⟨horph, ?_⟩
      simp only [sweepTask]
      rw [if_neg hnex]

/-- Witness for C1: a concrete orphaned task with retries remaining gets its
retry count bumped and its probe job rescheduled by the sweep. -/
theorem orphan_sweep_retry_bound_witness :
    (sweepTask "instance-b" 1000 orphanTask).1.retryCount = orphanTask.retryCount + 1 ∧
    monJobId orphanTask.taskId ∈
      (recoverOrphanedTasks "instance-b" 1000 ⟨[orphanTask], []⟩).jobs := by
  have h := orphan_sweep_retry_bound "instance-b" 1000 ⟨[orphanTask], []⟩ orphanTask
    (by simp) (by decide) (by simp) (by intro u hu _; simpa using hu)
  exact ⟨h.2.1, (h.2.2.2 (by decide)).2.2.2⟩

/-- C2, counterexample: a running task past its global deadline, orphaned
(stale heartbeat, foreign owner), is *not* transitioned to `timeout` by the
recovery sweep — the sweep's query excludes rows with
`timeout_at <= current_time`, so the row is left unchanged, still
`running`.  This refutes the claim that the very next check, "whether the
inline per-task check cycle or the periodic recovery sweep", transitions
such a task to `timeout`. -/
theorem sweep_skips_expired_counterexample :
    expiredOrphanTask.status = "running" ∧
    expiredOrphanTask.timeoutAt ≤ 1000 ∧
    expiredOrphanTask.assignedInstance = some "instance-a" ∧
    expiredOrphanTask.lastHeartbeat = some 100 ∧
    (recoverOrphanedTasks "instance-b" 1000 ⟨[expiredOrphanTask], []⟩).tasks
      = [expiredOrphanTask] ∧
    (recoverOrphanedTasks "instance-b" 1000 ⟨[expiredOrphanTask], []⟩).tasks.map
      MonitorTask.status = ["running"] := by
  exact ⟨rfl, by decide, rfl, rfl, rfl, rfl⟩

/-- C2 as amended: a task whose `timeout_at <= now` is transitioned to
`timeout` by the very next *inline* check cycle, before any condition
evaluation (so even if success or failure conditions would match); the
periodic recovery sweep, however, excludes globally timed-out tasks from
its query and leaves them unchanged. -/
theorem deadline_priority_amended :
    (∀ (cc : List (String × JValue) → CondColumn → Bool) (jf : String → String)
       (inst : String) (now : Nat) (probe : List (String × JValue))
       (task : MonitorTask) (jobs : List String),
       task.assignedInstance = some inst → task.status = "running" →
       task.timeoutAt ≤ now →
       (executeCheckWith cc jf inst now probe task jobs).1.status = "timeout") ∧
    (∀ (inst : String) (now : Nat) (s : MonitorState) (t : MonitorTask),
       t ∈ s.tasks → t.timeoutAt ≤ now →
       orphanPred inst now t = false ∧
       t ∈ (recoverOrphanedTasks inst now s).tasks) := by
  constructor
  · intro cc jf inst now probe task jobs ha hr hto
    simp [executeCheckWith, ha, hr, hto, completeTask]
  · intro inst now s t hmem hto
    have hfalse : orphanPred inst now t = false := by
      rw [Bool.eq_false_iff]
      intro h
      rw [orphanPred, Bool.and_eq_true] at h
      have := of_decide_eq_true h.2
      omega
    refine ⟨hfalse, ?_⟩
    have hm := List.mem_map_of_mem
      (fun u => if orphanPred inst now u then (sweepTask inst now u).1 else u) hmem
    simp only [recoverOrphanedTasks]
    simpa [hfalse] using hm

/-- Witness for C2 (amended): the inline check times out a concrete expired
task, and a concrete expired orphan fails the sweep's filter. -/
theorem deadline_priority_amended_witness :
    (executeCheckWith httpCheckConditions httpJobId "instance-a" 2000 sampleProbe
       baseTask []).1.status = "timeout" ∧
    orphanPred "instance-b" 1000 expiredOrphanTask = false := by
  exact ⟨deadline_priority_amended.1 httpCheckConditions httpJobId "instance-a" 2000
           sampleProbe baseTask [] rfl rfl (by decide),
         (deadline_priority_amended.2 "instance-b" 1000 ⟨[expiredOrphanTask], []⟩
           expiredOrphanTask (by simp) (by decide)).1⟩

/-- C3: while an active (`pending`/`running`) task exists for a
(`service_name`, `job_id`) pair, `start_monitoring` returns that task's id
and leaves the store unchanged; in particular, calling it a second time
right after a first call that created a task returns the id of the first
call and creates no second row. -/
theorem start_monitoring_idempotent
    (inst₁ inst₂ : String) (now₁ now₂ : Nat) (id₁ id₂ : String)
    (sn ji url₁ url₂ : String) (sc₁ fc₁ sc₂ fc₂ : CondColumn) (ci₁ ci₂ : Nat)
    (s : MonitorState) (hnone : findActiveTask sn ji s.tasks = none) :
    (∀ (inst : String) (now : Nat) (nid url : String) (sc fc : CondColumn)
       (ci : Nat) (s' : MonitorState) (t : MonitorTask),
       findActiveTask sn ji s'.tasks = some t →
       startMonitoring inst now nid sn ji url sc fc ci s' = (t.taskId, s')) ∧
    (startMonitoring inst₁ now₁ id₁ sn ji url₁ sc₁ fc₁ ci₁ s).1 = id₁ ∧
    (startMonitoring inst₁ now₁ id₁ sn ji url₁ sc₁ fc₁ ci₁ s).2.tasks.length
      = s.tasks.length + 1 ∧
    (startMonitoring inst₂ now₂ id₂ sn ji url₂ sc₂ fc₂ ci₂
       (startMonitoring inst₁ now₁ id₁ sn ji url₁ sc₁ fc₁ ci₁ s).2).1 = id₁ ∧
    (startMonitoring inst₂ now₂ id₂ sn ji url₂ sc₂ fc₂ ci₂
       (startMonitoring inst₁ now₁ id₁ sn ji url₁ sc₁ fc₁ ci₁ s).2).2
      = (startMonitoring inst₁ now₁ id₁ sn ji url₁ sc₁ fc₁ ci₁ s).2 := by
  have hdup : ∀ (inst : String) (now : Nat) (nid url : String) (sc fc : CondColumn)
      (ci : Nat) (s' : MonitorState) (t : MonitorTask),
      findActiveTask sn ji s'.tasks = some t →
      startMonitoring inst now nid sn ji url sc fc ci s' = (t.taskId, s') := by
    intro inst now nid url sc fc ci s' t hsome
    simp [startMonitoring, hsome]
  have hnone' : s.tasks.find? (fun t => t.serviceName == sn && t.jobId == ji &&
      (t.status == "pending" || t.status == "running")) = none := by
    simpa [findActiveTask] using hnone
  refine ⟨hdup, ?_, ?_, ?_, ?_⟩ <;>
    simp [startMonitoring, findActiveTask, hnone', List.find?_append]

/-- Witness for C3: starting the same (service, job) twice on an initially
empty store returns the first id both times and adds exactly one row. -/
theorem start_monitoring_idempotent_witness :
    (startMonitoring "instance-a" 0 "uuid-1" "http" "job-7" "http://x" none none 30
       ⟨[], []⟩).1 = "uuid-1" ∧
    (startMonitoring "instance-b" 5 "uuid-2" "http" "job-7" "http://y" none none 60
       (startMonitoring "instance-a" 0 "uuid-1" "http" "job-7" "http://x" none none 30
         ⟨[], []⟩).2).1 = "uuid-1" := by
  have h := start_monitoring_idempotent "instance-a" "instance-b" 0 5 "uuid-1" "uuid-2"
    "http" "job-7" "http://x" "http://y" none none none none 30 60 ⟨[], []⟩ rfl
  exact ⟨h.2.1, h.2.2.2.1⟩

/-- C4 (code bug): evaluation of the startup recovery scan of
`monitor_service.py` on a store holding an unassigned pending task inside
its deadline and one already past it, at time 1000.  The in-deadline task
is claimed (status `running`, assigned to the starting instance, heartbeat
reset) and the mutation is committed, but no probe job is ever scheduled:
the class defines no `_schedule_monitor_job`, so the loop's scheduling call
raises `AttributeError`, which the per-task `except` swallows.  The expired
task is excluded by the query's `timeout_at > current_time` filter, so the
loop's own mark-timeout branch is unreachable and the row stays `pending`
instead of being marked `timeout`.  Both effects contradict the claim,
whose behaviour the code plainly intends (the dead mark-timeout branch, and
the identically named helper on the class in `scheduler_service.py`). -/
theorem startup_scan_code_bug :
    (recoverMonitoringTasks "instance-a" 1000
       ⟨[pendingTask, expiredPendingTask], []⟩).tasks.map MonitorTask.status
      = ["running", "pending"] ∧
    (recoverMonitoringTasks "instance-a" 1000
       ⟨[pendingTask, expiredPendingTask], []⟩).tasks.map MonitorTask.assignedInstance
      = [some "instance-a", none] ∧
    (recoverMonitoringTasks "instance-a" 1000
       ⟨[pendingTask, expiredPendingTask], []⟩).tasks.map MonitorTask.lastHeartbeat
      = [some 1000, none] ∧
    (recoverMonitoringTasks "instance-a" 1000
       ⟨[pendingTask, expiredPendingTask], []⟩).jobs = [] ∧
    expiredPendingTask.timeoutAt ≤ 1000 ∧
    (recoverMonitoringTasks "instance-a" 1000
       ⟨[pendingTask, expiredPendingTask], []⟩).tasks.get ⟨1, by decide⟩
      = expiredPendingTask ∧
    monitorServiceMethods.contains "_schedule_monitor_job" = false := by
  exact ⟨rfl, rfl, rfl, rfl, by decide, rfl, rfl⟩

/-- C5: in the check cycle, success conditions are evaluated before failure
conditions — whenever both would match the probe result, the task is
completed as `completed`, not `failed` (for every monitor, i.e. for every
`check_conditions` implementation plugged into the base execution logic). -/
theorem success_precedes_failure
    (cc : List (String × JValue) → CondColumn → Bool) (jf : String → String)
    (inst : String) (now : Nat) (probe : List (String × JValue))
    (task : MonitorTask) (jobs : List String)
    (ha : task.assignedInstance = some inst) (hr : task.status = "running")
    (hto : now < task.timeoutAt)
    (hs : cc probe task.successConditions = true)
    (hf : cc probe task.failureConditions = true) :
    (executeCheckWith cc jf inst now probe task jobs).1.status = "completed" ∧
    (executeCheckWith cc jf inst now probe task jobs).1.status ≠ "failed" := by
  have : (executeCheckWith cc jf inst now probe task jobs).1.status = "completed" := by
    simp [executeCheckWith, ha, hr, Nat.not_le.mpr hto, hs, completeTask]
  exact ⟨this, by rw [this]; decide⟩

/-- Witness for C5: a task whose success and failure conditions are both
`{"status_code": 200}` is completed as `completed` on a 200 probe result. -/
theorem success_precedes_failure_witness :
    httpCheckConditions sampleProbe bothCondTask.successConditions = true ∧
    httpCheckConditions sampleProbe bothCondTask.failureConditions = true ∧
    (executeCheckWith httpCheckConditions httpJobId "instance-a" 100 sampleProbe
       bothCondTask []).1.status = "completed" := by
  exact ⟨by decide, by decide,
    (success_precedes_failure httpCheckConditions httpJobId "instance-a" 100
      sampleProbe bothCondTask [] rfl rfl (by decide) (by decide) (by decide)).1⟩

/-- C6 (code bug): the `/status/{task_id}` route calls
`monitor_service.get_monitoring_status`, but the `MonitorService` class the
route module imports (`app/services/monitor_service.py`) defines no such
method, so every call raises `AttributeError` and the catch-all handler
returns HTTP 500 — even for an existing task (and also for a missing one),
contradicting the claimed "snapshot or not-found, never any other
failure".  The snapshot lookup itself (defined only on the unrelated class
in `scheduler_service.py`) would have returned the row. -/
theorem get_status_route_missing_method :
    getMonitoringStatusImpl "t0" [baseTask] = some baseTask ∧
    routeGetStatus "t0" [baseTask] = RouteResult.serverError ∧
    routeGetStatus "no-such-task" [baseTask] = RouteResult.serverError ∧
    monitorServiceMethods.contains "get_monitoring_status" = false := by
  exact ⟨rfl, rfl, rfl, rfl⟩

/-- C7 (code bug): the `DELETE /stop/{task_id}` route cannot stop a running
task: it first calls the missing `monitor_service.get_monitoring_status`
(`AttributeError` → HTTP 500, state unchanged); moreover its guard compares
the status against the literal `"monitoring"`, which is never a task
status, and its actual stop call `monitor_service._stop_monitoring` is
defined nowhere.  The service-level `stop_monitoring` of
`scheduler_service.py` (never invoked by any route) does behave as claimed:
it records `stopped` with `completed_at` set, removes the job, and reports
`False` for an unknown id. -/
theorem stop_route_missing_method :
    baseTask.status = "running" ∧
    (routeStopMonitoring "t0" 1000 ⟨[baseTask], [monJobId "t0"]⟩).1
      = RouteResult.serverError ∧
    (routeStopMonitoring "t0" 1000 ⟨[baseTask], [monJobId "t0"]⟩).2.tasks
      = [baseTask] ∧
    (routeStopMonitoring "t0" 1000 ⟨[baseTask], [monJobId "t0"]⟩).2.jobs
      = [monJobId "t0"] ∧
    (stopMonitoring 1000 "t0" ⟨[baseTask], [monJobId "t0"]⟩).2 = true ∧
    (stopMonitoring 1000 "t0" ⟨[baseTask], [monJobId "t0"]⟩).1.tasks.map
      MonitorTask.status = ["stopped"] ∧
    (stopMonitoring 1000 "t0" ⟨[baseTask], [monJobId "t0"]⟩).1.tasks.map
      MonitorTask.completedAt = [some 1000] ∧
    (stopMonitoring 1000 "t0" ⟨[baseTask], [monJobId "t0"]⟩).1.jobs = [] ∧
    (stopMonitoring 1000 "missing" ⟨[baseTask], [monJobId "t0"]⟩).2 = false := by
  exact ⟨rfl, rfl, rfl, rfl, rfl, rfl, rfl, rfl, rfl⟩

/-- A terminal status is neither `running` nor `pending`. -/
theorem terminal_not_active {st : String} (h : st ∈ terminalStatuses) :
    (st == "running") = false ∧ (st == "pending") = false := by
  simp only [terminalStatuses, List.mem_cons, List.mem_singleton,
    List.not_mem_nil, or_false] at h
  rcases h with rfl | rfl | rfl | rfl <;> exact ⟨rfl, rfl⟩

/-- C8: terminal statuses are final — the check cycle, the startup recovery
scan, the orphan sweep, `start_monitoring`, the service-level stop, and the
stop route all leave every `completed`/`failed`/`timeout`/`stopped` row in
the store exactly as it is (the check cycle and the recovery queries filter
on non-terminal statuses; `start_monitoring` only ever appends a row; the
stop route, as wired, changes nothing at all). -/
theorem terminal_states_final :
    (∀ (cc : List (String × JValue) → CondColumn → Bool) (jf : String → String)
       (inst : String) (now : Nat) (probe : List (String × JValue))
       (task : MonitorTask) (jobs : List String),
       task.status ∈ terminalStatuses →
       executeCheckWith cc jf inst now probe task jobs = (task, jobs)) ∧
    (∀ (inst : String) (now : Nat) (s : MonitorState) (t : MonitorTask),
       t ∈ s.tasks → t.status ∈ terminalStatuses →
       t ∈ (recoverMonitoringTasks inst now s).tasks) ∧
    (∀ (inst : String) (now : Nat) (s : MonitorState) (t : MonitorTask),
       t ∈ s.tasks → t.status ∈ terminalStatuses →
       t ∈ (recoverOrphanedTasks inst now s).tasks) ∧
    (∀ (inst : String) (now : Nat) (nid sn ji url : String) (sc fc : CondColumn)
       (ci : Nat) (s : MonitorState) (t : MonitorTask),
       t ∈ s.tasks →
       t ∈ (startMonitoring inst now nid sn ji url sc fc ci s).2.tasks) ∧
    (∀ (now : Nat) (tid : String) (s : MonitorState) (t : MonitorTask),
       t ∈ s.tasks → t.status ∈ terminalStatuses →
       t ∈ (stopMonitoring now tid s).1.tasks) ∧
    (∀ (tid : String) (now : Nat) (s : MonitorState),
       (routeStopMonitoring tid now s).2 = s) := by
  refine ⟨?_, ?_, ?_, ?_, ?_, ?_⟩
  · intro cc jf inst now probe task jobs hterm
    rw [executeCheckWith]
    rw [if_pos]
    rw [(terminal_not_active hterm).1]
    simp
  · intro inst now s t hmem hterm
    have hpred : startupPred inst now t = false := by
      rw [startupPred, (terminal_not_active hterm).1, (terminal_not_active hterm).2]
      simp
    have hm := List.mem_map_of_mem
      (fun u => if startupPred inst now u then (startupRecoverTask inst now u).1 else u)
      hmem
    simp only [recoverMonitoringTasks]
    simpa [hpred] using hm
  · intro inst now s t hmem hterm
    have hpred : orphanPred inst now t = false := by
      rw [orphanPred, (terminal_not_active hterm).1]
      simp
    have hm := List.mem_map_of_mem
      (fun u => if orphanPred inst now u then (sweepTask inst now u).1 else u) hmem
    simp only [recoverOrphanedTasks]
    simpa [hpred] using hm
  · intro inst now nid sn ji url sc fc ci s t hmem
    rw [startMonitoring]
    cases hfind : findActiveTask sn ji s.tasks with
    | some u => simpa using hmem
    | none => simp only; exact List.mem_append_left _ hmem
  · intro now tid s t hmem hterm
    rw [stopMonitoring]
    cases hfind : s.tasks.find? (fun u => u.taskId == tid && u.status == "running") with
    | none => simpa using hmem
    | some u =>
        simp only
        have hm := List.mem_map_of_mem
          (fun u => if u.taskId == tid && u.status == "running" then
            completeTask now u "stopped"
              (JValue.obj [("message", JValue.str "Manually stopped")]) else u) hmem
        simpa [(terminal_not_active hterm).1] using hm
  · intro tid now s
    have hc : monitorServiceMethods.contains "get_monitoring_status" = false := rfl
    rw [routeStopMonitoring]
    rw [hc]
    simp

/-- Witness for C8: a concrete `completed` task is untouched by a check
cycle and still present unchanged after the orphan sweep. -/
theorem terminal_states_final_witness :
    doneTask.status ∈ terminalStatuses ∧
    executeCheckWith httpCheckConditions httpJobId "instance-a" 1000 sampleProbe
      doneTask [] = (doneTask, []) ∧
    doneTask ∈ (recoverOrphanedTasks "instance-b" 1000 ⟨[doneTask], []⟩).tasks := by
  refine ⟨by decide, terminal_states_final.1 httpCheckConditions httpJobId
    "instance-a" 1000 sampleProbe doneTask [] (by decide),
    terminal_states_final.2.2.1 "instance-b" 1000 ⟨[doneTask], []⟩ doneTask
      (by simp) (by decide)⟩

/-- C9: a failed/timed-out probe returns a result dict carrying an
`"error"` key instead of raising (both the HTTP and the database probe);
such an errored result matches neither success nor failure conditions
(whatever they are), so the check cycle leaves the task `running` with a
fresh heartbeat — it only ends later by exceeding its global timeout. -/
theorem probe_error_is_benign (msg ts : String) (conds : CondColumn) :
    hasKey (httpProbeErrorResult msg ts) "error" = true ∧
    hasKey (dbProbeErrorResult msg ts) "error" = true ∧
    httpCheckConditions (httpProbeErrorResult msg ts) conds = false ∧
    dbCheckConditions (dbProbeErrorResult msg ts) conds = false ∧
    (∀ (inst : String) (now : Nat) (task : MonitorTask) (jobs : List String),
       task.assignedInstance = some inst → task.status = "running" →
       now < task.timeoutAt →
       ((httpExecuteCheck inst now (httpProbeErrorResult msg ts) task jobs).1.status
          = "running" ∧
        (httpExecuteCheck inst now (httpProbeErrorResult msg ts) task jobs).1.lastHeartbeat
          = some now ∧
        (httpExecuteCheck inst now (httpProbeErrorResult msg ts) task jobs).2 = jobs ∧
        (dbExecuteCheck inst now (dbProbeErrorResult msg ts) task jobs).1.status
          = "running" ∧
        (dbExecuteCheck inst now (dbProbeErrorResult msg ts) task jobs).1.lastHeartbeat
          = some now)) := by
  have herrH : hasKey (httpProbeErrorResult msg ts) "error" = true := by
    simp [hasKey, jlookup, httpProbeErrorResult]
  have herrD : hasKey (dbProbeErrorResult msg ts) "error" = true := by
    simp [hasKey, jlookup, dbProbeErrorResult]
  have hccH : ∀ c : CondColumn,
      httpCheckConditions (httpProbeErrorResult msg ts) c = false :=
    fun c => httpCheckConditions_error herrH c
  have hccD : ∀ c : CondColumn,
      dbCheckConditions (dbProbeErrorResult msg ts) c = false :=
    fun c => dbCheckConditions_error herrD c
  refine ⟨herrH, herrD, hccH conds, hccD conds, ?_⟩
  intro inst now task jobs ha hr hto
  refine ⟨?_, ?_, ?_, ?_, ?_⟩ <;>
    simp [httpExecuteCheck, dbExecuteCheck, executeCheckWith, ha, hr,
      Nat.not_le.mpr hto, hccH, hccD, hr]

/-- Witness for C9: a concrete HTTP timeout error result leaves a concrete
running task unchanged except for the heartbeat. -/
theorem probe_error_is_benign_witness :
    httpCheckConditions (httpProbeErrorResult "HTTP request timeout" "ts1")
      (some [("status_code", JValue.num 200)]) = false ∧
    (httpExecuteCheck "instance-a" 100 (httpProbeErrorResult "HTTP request timeout" "ts1")
      baseTask []).1.status = "running" := by
  have h := probe_error_is_benign "HTTP request timeout" "ts1"
    (some [("status_code", JValue.num 200)])
  exact ⟨h.2.2.1, (h.2.2.2.2 "instance-a" 100 baseTask [] rfl rfl (by decide)).1⟩

/-- C10: for a probe result without an `"error"` key, a stored condition
spec containing none of the recognized predicate keys — e.g. the empty JSON
object `{}` — matches (`check_conditions` returns `True`, for both the HTTP
and the database checker); consequently a task whose stored
`success_conditions` column is the empty object is completed as `completed`
on its first check cycle whose probe result is error-free. -/
theorem empty_spec_matches :
    (∀ (resp conds : List (String × JValue)),
       hasKey resp "error" = false →
       (∀ p ∈ conds, p.1 ≠ "status_code" ∧ p.1 ≠ "json_fields" ∧
          p.1 ≠ "body_contains") →
       httpCheckConditions resp (some conds) = true) ∧
    (∀ (resp conds : List (String × JValue)),
       hasKey resp "error" = false →
       (∀ p ∈ conds, p.1 ≠ "min_row_count" ∧ p.1 ≠ "max_row_count" ∧
          p.1 ≠ "max_response_time" ∧ p.1 ≠ "data_fields") →
       dbCheckConditions resp (some conds) = true) ∧
    (∀ (inst : String) (now : Nat) (probe : List (String × JValue))
       (task : MonitorTask) (jobs : List String),
       task.assignedInstance = some inst → task.status = "running" →
       now < task.timeoutAt → task.successConditions = some [] →
       hasKey probe "error" = false →
       (httpExecuteCheck inst now probe task jobs).1.status = "completed") := by
  have hhttp : ∀ (resp conds : List (String × JValue)),
      hasKey resp "error" = false →
      (∀ p ∈ conds, p.1 ≠ "status_code" ∧ p.1 ≠ "json_fields" ∧
         p.1 ≠ "body_contains") →
      httpCheckConditions resp (some conds) = true := by
    intro resp conds herr hkeys
    have h1 : jlookup conds "status_code" = none :=
      jlookup_eq_none (fun p hp => (hkeys p hp).1)
    have h2 : jlookup conds "json_fields" = none :=
      jlookup_eq_none (fun p hp => (hkeys p hp).2.1)
    have h3 : jlookup conds "body_contains" = none :=
      jlookup_eq_none (fun p hp => (hkeys p hp).2.2)
    simp [httpCheckConditions, herr, httpCondStatusOk, httpCondJsonOk,
      httpCondBodyOk, h1, h2, h3]
  refine ⟨hhttp, ?_, ?_⟩
  · intro resp conds herr hkeys
    have h1 : jlookup conds "min_row_count" = none :=
      jlookup_eq_none (fun p hp => (hkeys p hp).1)
    have h2 : jlookup conds "max_row_count" = none :=
      jlookup_eq_none (fun p hp => (hkeys p hp).2.1)
    have h3 : jlookup conds "max_response_time" = none :=
      jlookup_eq_none (fun p hp => (hkeys p hp).2.2.1)
    have h4 : jlookup conds "data_fields" = none :=
      jlookup_eq_none (fun p hp => (hkeys p hp).2.2.2)
    simp [dbCheckConditions, herr, dbCondMinRows, dbCondMaxRows,
      dbCondRespTime, dbCondDataOk, h1, h2, h3, h4]
  · intro inst now probe task jobs ha hr hto hsc herr
    have hmatch : httpCheckConditions probe (some []) = true :=
      hhttp probe [] herr (by intro p hp; simp at hp)
    simp [httpExecuteCheck, executeCheckWith, ha, hr, Nat.not_le.mpr hto,
      hsc, hmatch, completeTask]

/-- Witness for C10: the empty spec matches a healthy 200 probe, and the
concrete task storing `{}` as success conditions completes immediately. -/
theorem empty_spec_matches_witness :
    hasKey sampleProbe "error" = false ∧
    httpCheckConditions sampleProbe (some []) = true ∧
    (httpExecuteCheck "instance-a" 100 sampleProbe emptySpecTask []).1.status
      = "completed" := by
  refine ⟨by decide, empty_spec_matches.1 sampleProbe [] (by decide)
    (by intro p hp; simp at hp), empty_spec_matches.2.2 "instance-a" 100
    sampleProbe emptySpecTask [] rfl rfl (by decide) rfl (by decide)⟩
